import Mathlib

/-!
Verification of the webhook message-debouncing subsystem of the
agent-jogunshop repository (src/core/webhook.py), shallowly embedded:
DynamoDB is an association list from chat id to an item, the Step
Functions / network environment is an explicit `Env` record holding the
outcome of each external call, and the handlers are pure functions on
those.
-/

namespace Webhook

/-- DynamoDB attribute values as the code discriminates them with
`isinstance`: strings, numbers and lists. -/
inductive DBVal where
  | str : String → DBVal
  | num : Int → DBVal
  | list : List DBVal → DBVal

/-- one DynamoDB item for a chat, with the attributes the code touches:
`message_list` (current schema), `message` (legacy schema) and
`timestamp`. -/
structure Item where
  message_list : Option DBVal := none
  message : Option DBVal := none
  timestamp : Option Int := none

/-- the DynamoDB table: an association list from `chat_id` to the item. -/
def Store := List (String × Item)

def Store.find : Store → String → Option Item
  | [], _ => none
  | (k, it) :: rest, key => if k == key then some it else Store.find rest key

def Store.insert : Store → String → Item → Store
  | [], k, it => [(k, it)]
  | (k', it') :: rest, k, it =>
    if k' == k then (k, it) :: rest else (k', it') :: Store.insert rest k it

def Store.erase : Store → String → Store
  | [], _ => []
  | (k', it') :: rest, k =>
    if k' == k then Store.erase rest k else (k', it') :: Store.erase rest k

/-- outcome of the `stop_execution` call on the existing RUNNING job;
the code catches `ExecutionDoesNotExist` and any other exception alike. -/
inductive StopOutcome where
  | ok
  | doesNotExist
  | otherError
deriving DecidableEq, Repr

/-- outcome of the outbound `requests.post` in `send_reply`. -/
inductive PostOutcome where
  | ok200
  | badStatus
  | netError
deriving DecidableEq, Repr

/-- outcomes of the external calls made during one invocation: DynamoDB
availability, the `kst_timestamp` value, the Step Functions environment
(`STATE_MACHINE_ARN`, the RUNNING execution names, the stop/start call
outcomes, the `uuid` suffix), the `route_request` outcome (an exception,
or a dict whose optional `response` entry is returned) and the Channel
API state. -/
structure Env where
  dynamoOk : Bool := true
  ts : Int := 0
  stateMachineArn : Option String := none
  listOk : Bool := true
  running : List String := []
  stopOutcome : StopOutcome := StopOutcome.ok
  startOk : Bool := true
  suffix : String := ""
  routeOutcome : Except Unit (Option String) := Except.error ()
  channelReady : Bool := false
  postOutcome : PostOutcome := PostOutcome.ok200

/-- the fixed fallback sentence used everywhere in webhook.py. -/
def fallbackMessage : String :=
  "보다 정확하고 친절한 안내를 위해 확인 중입니다. 잠시 기다려주시면 빠른 응대 도와드리게습니다."

/-- drop leading whitespace characters from a character list. -/
def dropWS : List Char → List Char
  | [] => []
  | c :: cs => if c.isWhitespace then dropWS cs else c :: cs

/-- Python `str.strip()`: the string without leading and trailing
whitespace, computed structurally on the character list. -/
def pyStrip (s : String) : String :=
  String.mk ((dropWS (dropWS s.data).reverse).reverse)

/-- one list of characters starts with another. -/
def isPre : List Char → List Char → Bool
  | [], _ => true
  | _ :: _, [] => false
  | c :: cs, d :: ds => c == d && isPre cs ds

/-- Python `s.startswith(t)`, computed structurally on the character
lists. -/
def pyStartswith (s t : String) : Bool := isPre t.data s.data

/-- an HTTP-style response body plus status code, as the handlers return
`({"status": ..., "message": ...}, code)`. -/
structure HttpResponse where
  status : String
  message : String
  code : Nat
deriving DecidableEq, Repr

/-! ### WebhookParser -/

/-- the `entity` object of a payload, with the fields the parser reads. -/
structure Entity where
  id : Option String := none
  chatId : Option String := none
  plainText : Option String := none
  personType : Option String := none
deriving DecidableEq, Repr

/-- the `refers.message` object of a `userChat` payload. -/
structure MessageObj where
  plainText : Option String := none
  personType : Option String := none
deriving DecidableEq, Repr

/-- the `refers` object of a payload. -/
structure Refers where
  message : Option MessageObj := none
deriving DecidableEq, Repr

/-- an inbound webhook payload, restricted to the fields
`WebhookParser.parse` reads. -/
structure Payload where
  type : Option String := none
  entity : Entity := {}
  refers : Refers := {}
deriving DecidableEq, Repr

/-- the `ParseResult` dataclass. -/
structure ParseResult where
  chat_id : Option String
  message : String
  is_valid : Bool
deriving DecidableEq, Repr

/-- Python truthiness of an optional string: `not chat_id` is true for
both `None` and the empty string. -/
def truthyOpt : Option String → Bool
  | none => false
  | some s => !(s == "")

/-- `WebhookParser.parse`: extract `(chat_id, message, person_type)`
according to the webhook type (initialised to `(None, "", "")`), then
reject unless the chat id is truthy, the raw message is non-empty and
the person type equals "user"; on success the message is stripped. -/
def parse (p : Payload) : ParseResult :=
  let triple : Option String × String × Option String :=
    if p.type == some "userChat" then
      let m := p.refers.message.getD {}
      (p.entity.id, m.plainText.getD "", m.personType)
    else if p.type == some "message" then
      (p.entity.chatId, p.entity.plainText.getD "", p.entity.personType)
    else
      (none, "", some "")
  let chat_id := triple.1
  let message := triple.2.1
  let person_type := triple.2.2
  if !truthyOpt chat_id || message == "" || !(person_type == some "user") then
    ParseResult.mk none "" false
  else
    ParseResult.mk chat_id (pyStrip message) true

/-! ### MessageRepository -/

/-- `MessageRepository.update_state`: the atomic DynamoDB
`list_append(if_not_exists(message_list, []), [new_message])` update,
creating the item when absent; it fails (returning `false`, the store
unchanged) when DynamoDB is unavailable or the existing `message_list`
attribute is not a list (the update expression then raises). -/
def update_state (env : Env) (store : Store) (chat_id new_message : String) :
    Bool × Store :=
  if !env.dynamoOk then (false, store)
  else
    let item : Item := (Store.find store chat_id).getD {}
    match item.message_list with
    | none =>
        (true, Store.insert store chat_id
          { item with message_list := some (DBVal.list [DBVal.str new_message]),
                      timestamp := some env.ts })
    | some (DBVal.list vs) =>
        (true, Store.insert store chat_id
          { item with message_list := some (DBVal.list (vs ++ [DBVal.str new_message])),
                      timestamp := some env.ts })
    | some _ => (false, store)

/-- strings among a list of DynamoDB values, as the comprehension
`[p for p in parts if isinstance(p, str)]` selects them. -/
def strsOf (vs : List DBVal) : List String :=
  vs.filterMap fun v => match v with
    | DBVal.str s => some s
    | _ => none

/-- the message extracted from the deleted item's old attributes:
`message_list` joined with single spaces and stripped when it is a list,
otherwise the legacy `message` attribute (joined or stripped), otherwise
the empty string; a missing item gives empty attributes. -/
def joinedOf : Option Item → String
  | none => ""
  | some it =>
    match it.message_list with
    | some (DBVal.list vs) => pyStrip (String.intercalate " " (strsOf vs))
    | _ =>
      match it.message with
      | some (DBVal.list vs) => pyStrip (String.intercalate " " (strsOf vs))
      | some (DBVal.str s) => pyStrip s
      | _ => ""

/-- `MessageRepository.get_and_clear_state`: the atomic
`delete_item(ReturnValues=ALL_OLD)` followed by the joining logic;
returns the empty string (store untouched) when DynamoDB is
unavailable. -/
def get_and_clear_state (env : Env) (store : Store) (chat_id : String) :
    String × Store :=
  if !env.dynamoOk then ("", store)
  else (joinedOf (Store.find store chat_id), Store.erase store chat_id)

/-! ### StepFunctionsClient -/

/-- result of one `StepFunctionsClient.start_execution` call: whether it
returned `True`, which RUNNING execution (if any) it attempted to stop,
and the name of the execution it started. -/
structure SfnResult where
  success : Bool
  stopTarget : Option String
  started : Option String
deriving DecidableEq, Repr

/-- `StepFunctionsClient.start_execution`: fail when
`STATE_MACHINE_ARN` is unset; list RUNNING executions (failure of the
listing aborts with `False`); attempt to stop the first whose name
starts with `chat-processing-<chat_id>`, swallowing every stop outcome
(`ExecutionDoesNotExist` and any other exception are both caught); then
start a fresh execution named
`chat-processing-<chat_id>-<timestamp>-<suffix>` and return whether that
start succeeded. -/
def start_execution (env : Env) (chat_id : String) : SfnResult :=
  let executionPre := "chat-processing-" ++ chat_id
  match env.stateMachineArn with
  | none => SfnResult.mk false none none
  | some _ =>
    if !env.listOk then SfnResult.mk false none none
    else
      let target := env.running.find? fun n => pyStartswith n executionPre
      let nm := executionPre ++ "-" ++ toString env.ts ++ "-" ++ env.suffix
      if env.startOk then SfnResult.mk true target (some nm)
      else SfnResult.mk false target none

/-! ### MessageOrchestrator -/

/-- result of `MessageOrchestrator.orchestrate_processing`: overall
success, the resulting store, the arguments of the `update_state` call
when one was made, and the argument of the `start_execution` call when
one was made. -/
structure OrchResult where
  success : Bool
  store : Store
  appendCall : Option (String × String)
  scheduleCall : Option String

/-- `MessageOrchestrator.orchestrate_processing`: update the state, and
only when that succeeds schedule the execution; the result is the
conjunction of the two. -/
def orchestrate_processing (env : Env) (store : Store)
    (chat_id message : String) : OrchResult :=
  let u := update_state env store chat_id message
  if !u.1 then OrchResult.mk false u.2 (some (chat_id, message)) none
  else
    let r := start_execution env chat_id
    OrchResult.mk r.success u.2 (some (chat_id, message)) (some chat_id)

/-! ### ChatService -/

/-- `ChatService.generate_reply`: on a `route_request` exception return
the fixed fallback sentence; otherwise return the dict's `response`
entry, defaulting to the fallback sentence when the key is absent. -/
def generate_reply (env : Env) (_last_message : String) : String :=
  match env.routeOutcome with
  | Except.error _ => fallbackMessage
  | Except.ok r => r.getD fallbackMessage

/-- `ChatService.send_reply`: when the Channel API is not configured,
answer OK without posting; otherwise post and report `"OK"` on HTTP 200
and `"ERROR"` on a bad status or a network error, always with code
200. -/
def send_reply (env : Env) (_message : String) : HttpResponse :=
  if !env.channelReady then HttpResponse.mk "OK" fallbackMessage 200
  else
    match env.postOutcome with
    | PostOutcome.ok200 => HttpResponse.mk "OK" fallbackMessage 200
    | PostOutcome.badStatus => HttpResponse.mk "ERROR" fallbackMessage 200
    | PostOutcome.netError => HttpResponse.mk "ERROR" fallbackMessage 200

/-! ### WebhookHandler -/

/-- result of `WebhookHandler.handle_new_message`: the HTTP response,
the resulting store, and the recorded repository/scheduler calls. -/
structure HandlerResult where
  response : HttpResponse
  store : Store
  appendCall : Option (String × String)
  scheduleCall : Option String

/-- `WebhookHandler.handle_new_message`: acknowledge invalid payloads
with OK/200 and no further processing; otherwise orchestrate, answering
OK/200 on success and ERROR/500 on failure. -/
def handle_new_message (env : Env) (store : Store) (payload : Payload) :
    HandlerResult :=
  let pr := parse payload
  if !pr.is_valid then
    HandlerResult.mk (HttpResponse.mk "OK" fallbackMessage 200) store none none
  else
    let o := orchestrate_processing env store (pr.chat_id.getD "") pr.message
    if o.success then
      HandlerResult.mk (HttpResponse.mk "OK" fallbackMessage 200)
        o.store o.appendCall o.scheduleCall
    else
      HandlerResult.mk (HttpResponse.mk "ERROR" fallbackMessage 500)
        o.store o.appendCall o.scheduleCall

/-! ### ScheduledChatProcessor -/

/-- result of `ScheduledChatProcessor.process`: the HTTP response, the
resulting store, and whether `generate_reply` / `send_reply` were
called. -/
structure ProcessResult where
  response : HttpResponse
  store : Store
  responderCalled : Bool
  sendCalled : Bool

/-- `ScheduledChatProcessor.process`: take-and-clear the buffered
message; when it is empty answer OK/200 and stop. Otherwise build the
`ChatService` (whose constructor raises `ValueError` on an empty chat
id, surfaced as the lambda wrapper's 500), generate the reply, and send
it when non-empty; an empty generated reply answers OK/200 without
sending. -/
def process (env : Env) (store : Store) (chat_id : String) : ProcessResult :=
  let g := get_and_clear_state env store chat_id
  let last_message := g.1
  if last_message == "" then
    ProcessResult.mk (HttpResponse.mk "OK" fallbackMessage 200) g.2 false false
  else if chat_id == "" then
    ProcessResult.mk (HttpResponse.mk "ERROR" "Internal server error" 500)
      g.2 false false
  else
    let reply_message := generate_reply env last_message
    if !(reply_message == "") then
      ProcessResult.mk (send_reply env reply_message) g.2 true true
    else
      ProcessResult.mk (HttpResponse.mk "OK" fallbackMessage 200) g.2 true false

/-! ### Association-list lemmas -/

theorem Store.find_insert_self (s : Store) (k : String) (it : Item) :
    Store.find (Store.insert s k it) k = some it := by
  induction s with
  | nil => simp [Store.insert, Store.find]
  | cons hd tl ih =>
    obtain ⟨k', it'⟩ := hd
    by_cases h : k' = k
    · simp [Store.insert, h, Store.find]
    · simp [Store.insert, h, Store.find, ih]

theorem Store.find_insert_ne (s : Store) (k k' : String) (it : Item)
    (h : k' ≠ k) : Store.find (Store.insert s k it) k' = Store.find s k' := by
  have h' : k ≠ k' := Ne.symm h
  induction s with
  | nil => simp [Store.insert, Store.find, h']
  | cons hd tl ih =>
    obtain ⟨k'', it''⟩ := hd
    by_cases hk : k'' = k
    · subst hk
      simp [Store.insert, Store.find, h']
    · simp [Store.insert, Store.find, hk, ih]

theorem Store.find_erase_self (s : Store) (k : String) :
    Store.find (Store.erase s k) k = none := by
  induction s with
  | nil => simp [Store.erase, Store.find]
  | cons hd tl ih =>
    obtain ⟨k', it'⟩ := hd
    by_cases h : k' = k
    · simp [Store.erase, h, ih]
    · simp [Store.erase, h, Store.find, ih]

theorem Store.find_erase_ne (s : Store) (k k' : String) (h : k' ≠ k) :
    Store.find (Store.erase s k) k' = Store.find s k' := by
  have h' : k ≠ k' := Ne.symm h
  induction s with
  | nil => simp [Store.erase, Store.find]
  | cons hd tl ih =>
    obtain ⟨k'', it''⟩ := hd
    by_cases hk : k'' = k
    · subst hk
      simp [Store.erase, Store.find, h', ih]
    · simp [Store.erase, Store.find, hk, ih]

theorem strsOf_map_str (l : List String) : strsOf (l.map DBVal.str) = l := by
  induction l with
  | nil => simp [strsOf]
  | cons x xs ih => simp [strsOf] at ih ⊢; exact ih

/-! ### Claim C1 -/

/-- C1: for every conversation whose pending record holds a list of string
fragments, `get_and_clear_state` returns exactly those fragments
concatenated in stored order with a single-space separator, then
trimmed. -/
theorem takeAndClear_joins_fragments (env : Env) (store : Store) (cid : String)
    (fragments : List String) (it : Item)
    (hok : env.dynamoOk = true)
    (hfind : Store.find store cid = some it)
    (hlist : it.message_list = some (DBVal.list (fragments.map DBVal.str))) :
    (get_and_clear_state env store cid).1 =
      pyStrip (String.intercalate " " fragments) := by
  simp [get_and_clear_state, hok, hfind, joinedOf, hlist, strsOf_map_str]

def envD : Env := {}

def storeA : Store :=
  (update_state envD (update_state envD [] "c1" "안녕하세요").2
    "c1" "사이즈 문의드립니다!").2

def itemA : Item :=
  { message_list :=
      some (DBVal.list [DBVal.str "안녕하세요", DBVal.str "사이즈 문의드립니다!"]),
    timestamp := some 0 }

/-- C1 witness: Scenario A, appending "안녕하세요" then
"사이즈 문의드립니다!" to "c1" and consuming. -/
theorem takeAndClear_joins_fragments_witness :
    (get_and_clear_state envD storeA "c1").1 = "안녕하세요 사이즈 문의드립니다!" := by
  have h := takeAndClear_joins_fragments envD storeA "c1"
    ["안녕하세요", "사이즈 문의드립니다!"] itemA rfl rfl rfl
  rw [h]
  rfl

/-! ### Claim C2 -/

/-- C2: consuming a conversation with no pending record yields the empty
string, the scheduled-consolidation path then calls neither the responder
nor the sender and answers OK/200; and immediately re-consuming after any
consumption also yields the empty string. -/
theorem takeAndClear_absent_noop (env : Env) (store : Store) (cid : String)
    (habs : Store.find store cid = none) :
    (get_and_clear_state env store cid).1 = ""
    ∧ (process env store cid).response = HttpResponse.mk "OK" fallbackMessage 200
    ∧ (process env store cid).responderCalled = false
    ∧ (process env store cid).sendCalled = false
    ∧ (env.dynamoOk = true → ∀ store' : Store,
        (get_and_clear_state env (get_and_clear_state env store' cid).2 cid).1
          = "") := by
  have hget : (get_and_clear_state env store cid).1 = "" := by
    by_cases hok : env.dynamoOk
    · simp [get_and_clear_state, hok, habs, joinedOf]
    · simp [get_and_clear_state, hok]
  refine ⟨hget, ?_, ?_, ?_, ?_⟩
  · simp [process, hget]
  · simp [process, hget]
  · simp [process, hget]
  · intro hok store'
    simp [get_and_clear_state, hok, Store.find_erase_self, joinedOf]

/-- C2 witness: Scenario D on conversation "c-empty" with an empty
table. -/
theorem takeAndClear_absent_noop_witness :
    (get_and_clear_state envD [] "c-empty").1 = ""
    ∧ (process envD [] "c-empty").response
        = HttpResponse.mk "OK" fallbackMessage 200
    ∧ (process envD [] "c-empty").responderCalled = false
    ∧ (process envD [] "c-empty").sendCalled = false
    ∧ (envD.dynamoOk = true → ∀ store' : Store,
        (get_and_clear_state envD (get_and_clear_state envD store' "c-empty").2
          "c-empty").1 = "") :=
  takeAndClear_absent_noop envD [] "c-empty" rfl

/-! ### Claim C3 -/

def payloadB : Payload :=
  { type := some "message",
    entity := { chatId := some "c1", plainText := some "안녕하세요",
                personType := some "user" } }

def envNoDynamo : Env := { dynamoOk := false }

/-- C3 counterexample: on a valid inbound message whose buffer append
fails (DynamoDB unavailable), `handle_new_message` answers HTTP 500, not
a 2xx status. -/
theorem inbound_500_on_append_failure :
    (handle_new_message envNoDynamo [] payloadB).response.code = 500 := rfl

/-- C3 amended: the inbound handler always answers with the generic
fallback body; the status code is 200 for invalid events and for fully
successful processing, but a valid message whose buffer append or
scheduler start fails is answered with status "ERROR" and HTTP 500 — a
retryable error code. -/
theorem inbound_status_characterization (env : Env) (store : Store)
    (p : Payload) :
    ((handle_new_message env store p).response.code = 200
      ∨ (handle_new_message env store p).response.code = 500)
    ∧ (handle_new_message env store p).response.message = fallbackMessage
    ∧ ((handle_new_message env store p).response.code = 500 ↔
        ((parse p).is_valid = true
          ∧ (orchestrate_processing env store ((parse p).chat_id.getD "")
              (parse p).message).success = false)) := by
  by_cases hv : (parse p).is_valid
  · by_cases hs : (orchestrate_processing env store ((parse p).chat_id.getD "")
        (parse p).message).success
    · simp [handle_new_message, hv, hs]
    · simp [handle_new_message, hv, hs]
  · simp [handle_new_message, hv]

/-! ### Claim C4 -/

/-- C4: when a prior RUNNING execution matches the conversation's name
scheme and stopping it reports that the execution does not exist,
`start_execution` still starts a new execution and returns true —
identical, in success and in the started name, to the run where no prior
execution is RUNNING. -/
theorem idempotent_cancel_schedule (env : Env) (cid arn jobName : String)
    (harn : env.stateMachineArn = some arn)
    (hlist : env.listOk = true)
    (hstart : env.startOk = true)
    (_hstop : env.stopOutcome = StopOutcome.doesNotExist)
    (hrun : env.running.find?
        (fun n => pyStartswith n ("chat-processing-" ++ cid)) = some jobName) :
    (start_execution env cid).success = true
    ∧ (start_execution env cid).stopTarget = some jobName
    ∧ (start_execution env cid).started
        = some ("chat-processing-" ++ cid ++ "-" ++ toString env.ts ++ "-"
            ++ env.suffix)
    ∧ (start_execution { env with running := [] } cid).success = true
    ∧ (start_execution { env with running := [] } cid).stopTarget = none
    ∧ (start_execution env cid).started
        = (start_execution { env with running := [] } cid).started := by
  simp [start_execution, harn, hlist, hstart, hrun]

def envRun : Env :=
  { stateMachineArn := some "arn:aws:states:test:stateMachine:chat",
    ts := 1700000000, suffix := "abcd1234",
    running := ["chat-processing-c1-1699990000-deadbeef"],
    stopOutcome := StopOutcome.doesNotExist }

/-- C4 witness: a RUNNING execution for "c1" whose stop reports
not-found; scheduling succeeds exactly as with no RUNNING execution. -/
theorem idempotent_cancel_schedule_witness :
    (start_execution envRun "c1").success = true
    ∧ (start_execution envRun "c1").stopTarget
        = some "chat-processing-c1-1699990000-deadbeef"
    ∧ (start_execution envRun "c1").started
        = some ("chat-processing-" ++ "c1" ++ "-" ++ toString envRun.ts ++ "-"
            ++ envRun.suffix)
    ∧ (start_execution { envRun with running := [] } "c1").success = true
    ∧ (start_execution { envRun with running := [] } "c1").stopTarget = none
    ∧ (start_execution envRun "c1").started
        = (start_execution { envRun with running := [] } "c1").started :=
  idempotent_cancel_schedule envRun "c1" "arn:aws:states:test:stateMachine:chat"
    "chat-processing-c1-1699990000-deadbeef" rfl rfl rfl rfl rfl

/-! ### Claim C5 -/

def envSfn : Env :=
  { stateMachineArn := some "arn:aws:states:test:stateMachine:chat",
    ts := 1700000000, suffix := "abcd1234" }

/-- C5 counterexample: scheduling conversation "c1" creates the execution
name "chat-processing-c1-1700000000-abcd1234", which does not begin with
"job-c1". -/
theorem schedule_name_not_job_prefixed :
    (start_execution envSfn "c1").started
      = some "chat-processing-c1-1700000000-abcd1234"
    ∧ pyStartswith "chat-processing-c1-1700000000-abcd1234" "job-c1" = false := by
  exact ⟨rfl, rfl⟩

/-- C5 amended: the scheduler's per-conversation identity scheme is
`chat-processing-<conversation_id>`: `start_execution` matches RUNNING
executions by that name prefix and starts the new execution under
`chat-processing-<conversation_id>-<timestamp>-<random suffix>`. -/
theorem schedule_naming_scheme (env : Env) (cid arn : String)
    (harn : env.stateMachineArn = some arn)
    (hlist : env.listOk = true)
    (hstart : env.startOk = true) :
    (start_execution env cid).started
      = some ("chat-processing-" ++ cid ++ "-" ++ toString env.ts ++ "-"
          ++ env.suffix)
    ∧ (start_execution env cid).stopTarget
      = env.running.find? (fun n => pyStartswith n ("chat-processing-" ++ cid)) := by
  simp [start_execution, harn, hlist, hstart]

/-- C5 witness: scheduling "c1" in a concrete environment yields the
execution name "chat-processing-c1-1700000000-abcd1234" and no stop
target. -/
theorem schedule_naming_scheme_witness :
    (start_execution envSfn "c1").started
      = some "chat-processing-c1-1700000000-abcd1234"
    ∧ (start_execution envSfn "c1").stopTarget = none := by
  have h := schedule_naming_scheme envSfn "c1"
    "arn:aws:states:test:stateMachine:chat" rfl rfl rfl
  exact ⟨h.1.trans (by rfl), h.2.trans (by rfl)⟩

/-! ### Claim C6 -/

/-- acceptance condition in the claim's words (the refinement side of
C6): one of the two recognized shapes, a present (non-empty) conversation
id, non-empty raw message text, and author personType "user". -/
def specAccepts (p : Payload) : Bool :=
  (p.type == some "userChat" && truthyOpt p.entity.id
    && !((p.refers.message.getD {}).plainText.getD "" == "")
    && ((p.refers.message.getD {}).personType == some "user"))
  || (p.type == some "message" && truthyOpt p.entity.chatId
    && !(p.entity.plainText.getD "" == "")
    && (p.entity.personType == some "user"))

/-- C6: `parse` accepts exactly the events satisfying the claim's
condition, and every rejected event yields the one invalid result. -/
theorem parse_valid_iff (p : Payload) :
    (parse p).is_valid = specAccepts p
    ∧ (specAccepts p = false → parse p = ParseResult.mk none "" false) := by
  obtain ⟨t, e, r⟩ := p
  have e1 : ((some "userChat" : Option String) == some "message") = false := by
    decide
  by_cases h1 : t = some "userChat"
  · subst h1
    cases ha : truthyOpt e.id <;>
      cases hb : ((r.message.getD {}).plainText.getD "" == "") <;>
        cases hc : ((r.message.getD {}).personType == some "user") <;>
          simp [parse, specAccepts, ha, hb, hc, e1]
  · by_cases h2 : t = some "message"
    · subst h2
      cases ha : truthyOpt e.chatId <;>
        cases hb : (e.plainText.getD "" == "") <;>
          cases hc : (e.personType == some "user") <;>
            simp [parse, specAccepts, ha, hb, hc]
    · simp [parse, specAccepts, h1, h2, truthyOpt]

/-! ### Claim C7 -/

/-- C7: every event `parse` rejects is a complete no-op: the store is
untouched, neither the repository nor the scheduler is called, and the
response is OK/200. -/
theorem validation_noop_ok (env : Env) (store : Store) (p : Payload)
    (hinv : (parse p).is_valid = false) :
    handle_new_message env store p
      = HandlerResult.mk (HttpResponse.mk "OK" fallbackMessage 200)
          store none none := by
  simp [handle_new_message, hinv]

def payloadC : Payload :=
  { type := some "message",
    entity := { chatId := none, plainText := some "hi",
                personType := some "user" } }

/-- C7 witness: Scenario C, a message event with a null chat id. -/
theorem validation_noop_ok_witness :
    handle_new_message envD [] payloadC
      = HandlerResult.mk (HttpResponse.mk "OK" fallbackMessage 200)
          [] none none :=
  validation_noop_ok envD [] payloadC rfl

/-! ### Claim C9 -/

/-- C9: when `route_request` raises, `generate_reply` returns the fixed
fallback sentence, which is non-empty, so the scheduled path still calls
`send_reply` for the batch. -/
theorem responder_failure_fallback_and_send (env : Env) (store : Store)
    (cid : String)
    (hraise : env.routeOutcome = Except.error ())
    (hmsg : (get_and_clear_state env store cid).1 ≠ "")
    (hcid : cid ≠ "") :
    generate_reply env ((get_and_clear_state env store cid).1) = fallbackMessage
    ∧ fallbackMessage ≠ ""
    ∧ (process env store cid).responderCalled = true
    ∧ (process env store cid).sendCalled = true := by
  have hg : generate_reply env ((get_and_clear_state env store cid).1)
      = fallbackMessage := by
    simp [generate_reply, hraise]
  have hfb : (fallbackMessage == "") = false := by decide
  refine ⟨hg, by decide, ?_, ?_⟩ <;>
    simp [process, hmsg, hcid, hg, hfb]

def storeC9 : Store :=
  [("c1", { message_list := some (DBVal.list [DBVal.str "배송 언제 오나요?"]) })]

def envRaise : Env := { routeOutcome := Except.error () }

/-- C9 witness: one buffered fragment for "c1" and a raising responder:
the fallback is generated and the send is attempted. -/
theorem responder_failure_fallback_and_send_witness :
    generate_reply envRaise ((get_and_clear_state envRaise storeC9 "c1").1)
      = fallbackMessage
    ∧ fallbackMessage ≠ ""
    ∧ (process envRaise storeC9 "c1").responderCalled = true
    ∧ (process envRaise storeC9 "c1").sendCalled = true :=
  responder_failure_fallback_and_send envRaise storeC9 "c1" rfl (by decide)
    (by decide)

/-! ### Claim C10 -/

def wsPayload (cid s : String) : Payload :=
  { type := some "message",
    entity := { chatId := some cid, plainText := some s,
                personType := some "user" } }

/-- C10: `parse` tests emptiness on the raw text and strips only
afterwards: a message event with a present chat id, personType "user"
and whitespace-only non-empty text is accepted with the empty string as
fragment, and the handler then appends that empty fragment for the
conversation. -/
theorem whitespace_message_valid_empty_fragment (env : Env) (store : Store)
    (cid s : String) (hcid : cid ≠ "") (hne : s ≠ "")
    (hws : pyStrip s = "") :
    parse (wsPayload cid s) = ParseResult.mk (some cid) "" true
    ∧ (handle_new_message env store (wsPayload cid s)).appendCall
        = some (cid, "") := by
  have hp : parse (wsPayload cid s) = ParseResult.mk (some cid) "" true := by
    simp [parse, wsPayload, truthyOpt, hcid, hne, hws]
  have ho : (orchestrate_processing env store cid "").appendCall
      = some (cid, "") := by
    simp only [orchestrate_processing]
    split <;> rfl
  refine ⟨hp, ?_⟩
  simp only [handle_new_message, hp]
  split <;> simp_all [ho]
  split <;> rfl

/-- C10 witness: a single-space text for "c1" parses as valid with the
empty fragment, which the handler appends. -/
theorem whitespace_message_valid_empty_fragment_witness :
    parse (wsPayload "c1" " ") = ParseResult.mk (some "c1") "" true
    ∧ (handle_new_message envD [] (wsPayload "c1" " ")).appendCall
        = some ("c1", "") :=
  whitespace_message_valid_empty_fragment envD [] "c1" " " (by decide)
    (by decide) (by decide)

/-! ### Claim C8 -/

/-- one repository operation: an append of a fragment to a conversation,
or a consumption of a conversation's pending batch. -/
inductive Op where
  | append : String → String → Op
  | take : String → Op

/-- run a sequence of repository operations against the table. -/
def runOps (env : Env) : Store → List Op → Store
  | store, [] => store
  | store, Op.append cid msg :: rest =>
      runOps env (update_state env store cid msg).2 rest
  | store, Op.take cid :: rest =>
      runOps env (get_and_clear_state env store cid).2 rest

/-- effect of one operation on the "work is pending" abstraction. -/
def pendingMark : (String → Bool) → Op → String → Bool
  | f, Op.append c _ => fun x => if x = c then true else f x
  | f, Op.take c => fun x => if x = c then false else f x

/-- at least one fragment has been appended to the conversation since its
last consumption (the claim's notion of pending work). -/
def appendedSinceConsume (ops : List Op) (cid : String) : Bool :=
  (ops.foldl pendingMark fun _ => false) cid

/-- every item in the table carries a `message_list` attribute that is a
DynamoDB list; this holds on every table reachable by the repository's
own operations. -/
def WFStore (store : Store) : Prop :=
  ∀ k it, Store.find store k = some it →
    ∃ vs : List DBVal, it.message_list = some (DBVal.list vs)

theorem find_insert_cases (s : Store) (k k' : String) (it it' : Item)
    (h : Store.find (Store.insert s k it) k' = some it') :
    (k' = k ∧ it' = it) ∨ Store.find s k' = some it' := by
  by_cases hk : k' = k
  · subst hk
    rw [Store.find_insert_self] at h
    exact Or.inl ⟨rfl, (Option.some_injective _ h).symm⟩
  · rw [Store.find_insert_ne _ _ _ _ hk] at h
    exact Or.inr h

theorem wf_update (env : Env) (store : Store) (cid msg : String)
    (h : WFStore store) : WFStore (update_state env store cid msg).2 := by
  intro k it hfind
  by_cases hok : env.dynamoOk
  · cases hf : Store.find store cid with
    | none =>
      simp only [update_state, hok, hf, Bool.not_true, if_false,
        Option.getD_none] at hfind
      rcases find_insert_cases _ _ _ _ _ hfind with ⟨_, hit⟩ | hold
      · subst hit; exact ⟨_, rfl⟩
      · exact h k it hold
    | some it0 =>
      obtain ⟨vs, hvs⟩ := h cid it0 hf
      simp only [update_state, hok, hf, Bool.not_true, if_false,
        Option.getD_some, hvs] at hfind
      rcases find_insert_cases _ _ _ _ _ hfind with ⟨_, hit⟩ | hold
      · subst hit; exact ⟨_, rfl⟩
      · exact h k it hold
  · simp only [update_state, hok] at hfind
    exact h k it hfind

theorem take_snd (env : Env) (store : Store) (cid : String)
    (hok : env.dynamoOk = true) :
    (get_and_clear_state env store cid).2 = Store.erase store cid := by
  simp [get_and_clear_state, hok]

theorem wf_take (env : Env) (store : Store) (cid : String)
    (h : WFStore store) : WFStore (get_and_clear_state env store cid).2 := by
  intro k it hfind
  by_cases hok : env.dynamoOk
  · rw [take_snd env store cid hok] at hfind
    by_cases hk : k = cid
    · subst hk
      rw [Store.find_erase_self] at hfind
      exact absurd hfind (by simp)
    · rw [Store.find_erase_ne _ _ _ hk] at hfind
      exact h k it hfind
  · simp only [get_and_clear_state, hok] at hfind
    exact h k it hfind

theorem isSome_update (env : Env) (store : Store) (cid msg x : String)
    (hok : env.dynamoOk = true) (hwf : WFStore store) :
    (Store.find (update_state env store cid msg).2 x).isSome
      = if x = cid then true else (Store.find store x).isSome := by
  cases hf : Store.find store cid with
  | none =>
    simp only [update_state, hok, hf, Bool.not_true, if_false,
      Option.getD_none]
    by_cases hx : x = cid
    · subst hx; simp [Store.find_insert_self]
    · simp [Store.find_insert_ne _ _ _ _ hx, hx]
  | some it0 =>
    obtain ⟨vs, hvs⟩ := hwf cid it0 hf
    simp only [update_state, hok, hf, Bool.not_true, if_false,
      Option.getD_some, hvs]
    by_cases hx : x = cid
    · subst hx; simp [Store.find_insert_self]
    · simp [Store.find_insert_ne _ _ _ _ hx, hx]

theorem isSome_take (env : Env) (store : Store) (cid x : String)
    (hok : env.dynamoOk = true) :
    (Store.find (get_and_clear_state env store cid).2 x).isSome
      = if x = cid then false else (Store.find store x).isSome := by
  simp only [get_and_clear_state, hok, Bool.not_true, if_false]
  by_cases hx : x = cid
  · subst hx; simp [Store.find_erase_self]
  · simp [Store.find_erase_ne _ _ _ hx, hx]

theorem runOps_pending (env : Env) (hok : env.dynamoOk = true)
    (ops : List Op) :
    ∀ (store : Store) (f : String → Bool), WFStore store →
      (∀ x, (Store.find store x).isSome = f x) →
      ∀ x, (Store.find (runOps env store ops) x).isSome
        = (ops.foldl pendingMark f) x := by
  induction ops with
  | nil =>
    intro store f _ hf x
    simpa [runOps] using hf x
  | cons op rest ih =>
    intro store f hwf hf x
    cases op with
    | append c m =>
      have hf' : ∀ y, (Store.find (update_state env store c m).2 y).isSome
          = pendingMark f (Op.append c m) y := by
        intro y
        rw [isSome_update env store c m y hok hwf]
        simp [pendingMark, hf y]
      simpa [runOps, List.foldl] using
        ih (update_state env store c m).2 _ (wf_update env store c m hwf) hf' x
    | take c =>
      have hf' : ∀ y, (Store.find (get_and_clear_state env store c).2 y).isSome
          = pendingMark f (Op.take c) y := by
        intro y
        rw [isSome_take env store c y hok]
        simp [pendingMark, hf y]
      simpa [runOps, List.foldl] using
        ih (get_and_clear_state env store c).2 _ (wf_take env store c hwf) hf' x

/-- C8: over every sequence of append/take operations from an empty
table, a record for a conversation exists iff a fragment has been
appended since its last consumption; an append creates the record with a
one-element list when absent and appends to the stored list otherwise;
and a consumption removes the record entirely. -/
theorem record_exists_iff_pending :
    (∀ (env : Env) (ops : List Op) (cid : String), env.dynamoOk = true →
      (Store.find (runOps env [] ops) cid).isSome
        = appendedSinceConsume ops cid)
    ∧ (∀ (env : Env) (store : Store) (cid msg : String),
        env.dynamoOk = true → Store.find store cid = none →
        Store.find (update_state env store cid msg).2 cid
          = some { message_list := some (DBVal.list [DBVal.str msg]),
                   message := none, timestamp := some env.ts })
    ∧ (∀ (env : Env) (store : Store) (cid msg : String) (it : Item)
        (vs : List DBVal),
        env.dynamoOk = true → Store.find store cid = some it →
        it.message_list = some (DBVal.list vs) →
        Store.find (update_state env store cid msg).2 cid
          = some { it with
                   message_list := some (DBVal.list (vs ++ [DBVal.str msg])),
                   timestamp := some env.ts })
    ∧ (∀ (env : Env) (store : Store) (cid : String), env.dynamoOk = true →
        Store.find (get_and_clear_state env store cid).2 cid = none) := by
  refine ⟨?_, ?_, ?_, ?_⟩
  · intro env ops cid hok
    have hbase : ∀ x, (Store.find ([] : Store) x).isSome = (fun _ => false) x := by
      intro x; simp [Store.find]
    have hwf : WFStore [] := by
      intro k it hfind
      simp [Store.find] at hfind
    exact runOps_pending env hok ops [] _ hwf hbase cid
  · intro env store cid msg hok habs
    simp [update_state, hok, habs, Store.find_insert_self]
  · intro env store cid msg it vs hok hfind hvs
    simp [update_state, hok, hfind, hvs, Store.find_insert_self]
  · intro env store cid hok
    simp [get_and_clear_state, hok, Store.find_erase_self]

def itemA1 : Item :=
  { message_list := some (DBVal.list [DBVal.str "안녕하세요"]),
    message := none, timestamp := some (0 : Int) }

def opsEx : List Op :=
  [Op.append "c1" "안녕하세요", Op.append "c2" "배송 문의", Op.take "c1",
   Op.append "c1" "사이즈 문의드립니다!"]

/-- C8 witness: a concrete operation sequence, a creating append, an
extending append, and a deleting consumption. -/
theorem record_exists_iff_pending_witness :
    ((Store.find (runOps envD [] opsEx) "c1").isSome
      = appendedSinceConsume opsEx "c1")
    ∧ (Store.find (update_state envD [] "c1" "안녕하세요").2 "c1"
        = some { message_list := some (DBVal.list [DBVal.str "안녕하세요"]),
                 message := none, timestamp := some envD.ts })
    ∧ (Store.find
        (update_state envD (update_state envD [] "c1" "안녕하세요").2 "c1"
          "사이즈 문의드립니다!").2 "c1"
        = some { itemA1 with
                 message_list := some (DBVal.list
                   [DBVal.str "안녕하세요", DBVal.str "사이즈 문의드립니다!"]),
                 timestamp := some envD.ts })
    ∧ (Store.find (get_and_clear_state envD storeA "c1").2 "c1" = none) :=
  ⟨record_exists_iff_pending.1 envD opsEx "c1" rfl,
   record_exists_iff_pending.2.1 envD [] "c1" "안녕하세요" rfl rfl,
   record_exists_iff_pending.2.2.1 envD (update_state envD [] "c1" "안녕하세요").2
     "c1" "사이즈 문의드립니다!" itemA1 [DBVal.str "안녕하세요"] rfl rfl rfl,
   record_exists_iff_pending.2.2.2 envD storeA "c1" rfl⟩

end Webhook
